import Mathlib

/-!
Verification of the clustertest cluster wrapper and Docker cluster

Shallow embedding of the `cluster` package (BasicCluster / BasicNode wrappers),
the `cluster/docker` package (Docker-backed Cluster), and — where the agent
implementation is only visible through its tests and the specification — a
model of the node agent's process-execution engine and liveness supervisor.

Go conventions are embedded as follows: a Go `error` value is `Option String`
(`none` is `nil`); a fallible call is `Except String α`; a Go function that can
panic returns a `GoResult` with an explicit `panicked` constructor; effects of
external collaborators (the OS, the Docker daemon, the remote agent) are
injected as oracle functions in an environment record, and the calls the code
makes against them are recorded in explicit traces.
-/

namespace ClusterPkg

/-- A value of the `Node` interface from the `cluster` package.  `id`
distinguishes nodes; `rootDirCap` models the result of the runtime type
probe `n.Node.(interface{ RootDir() string })`: `some s` when the dynamic
type implements `RootDir() string` (returning `s`), `none` when it does not. -/
structure Node where
  id : Nat
  rootDirCap : Option String
deriving DecidableEq

/-- Logger naming of `zap`: `l.Named(name)` appends the name with a dot
separator to the logger's path. -/
def named (l name : String) : String := l ++ "." ++ name

/-- The `BasicNode` struct from the `cluster` package: a `Node` plus a named logger. -/
structure BasicNode where
  node : Node
  log : String
deriving DecidableEq

/-- Outcome of a Go call that may return a value, return an error, or panic. -/
inductive GoResult (α : Type) where
  | ok : α → GoResult α
  | err : String → GoResult α
  | panicked : String → GoResult α
deriving DecidableEq

/-- The node wrapping performed by both `BasicCluster.NewNode` and
`BasicCluster.NewNodes`: `&BasicNode{Node: n, Log: c.Log.Named("basic_node")}`. -/
def wrapNode (log : String) (nd : Node) : BasicNode :=
  ⟨nd, named log "basic_node"⟩

/-- Embedding of `BasicCluster.NewNode`, as a function of the wrapped cluster's
`NewNodes(ctx, 1)` outcome (a node list and an error, both of which Go allows
to be non-nil at once).  The source checks only `err != nil` and then indexes
`nodes[0]` unguarded, which panics when the list is empty. -/
def NewNode (log : String) (underlying : List Node × Option String) :
    GoResult BasicNode :=
  match underlying.2 with
  | some e => .err e
  | none =>
    match underlying.1 with
    | [] => .panicked "runtime error: index out of range [0] with length 0"
    | nd :: _ => .ok (wrapNode log nd)

/-- Embedding of `BasicCluster.NewNodes`, as a function of the wrapped cluster's
`NewNodes(ctx, n)` outcome.  The source wraps every returned node (in range
order) into a `BasicNode` and returns the wrapped list together with the
underlying error, without inspecting the error first. -/
def NewNodes (log : String) (underlying : List Node × Option String) :
    List BasicNode × Option String :=
  (underlying.1.map (wrapNode log), underlying.2)

/-- Rendering of `%w` in `fmt.Errorf`: the wrapped error's message, or Go's
placeholder text when the wrapped error is `nil`. -/
def werrString : Option String → String
  | some e => e
  | none => "%!w(<nil>)"

/-- Embedding of `BasicNode.Run`, as a function of the outcome of its two interface calls:
`StartProc` (an error means the process did not start) and, when started,
`proc.Wait` (an exit code and an error).  The source returns `(-1, err)` on a
start error, `(-1, fmt.Errorf("non-zero exit code %d: %w", code, err))` when
the exit code is non-zero, and `(code, nil)` otherwise — discarding any `Wait`
error that accompanies exit code `0`. -/
def Run (startRes : Except String (Int × Option String)) : Int × Option String :=
  match startRes with
  | .error e => (-1, some e)
  | .ok (code, werr) =>
    if code ≠ 0 then
      (-1, some ("non-zero exit code " ++ toString code ++ ": " ++ werrString werr))
    else
      (code, none)

/-- Embedding of `BasicNode.RootDir`: returns the wrapped node's `RootDir()` when the
dynamic type implements it, and the fixed default `"/"` otherwise. -/
def RootDir (b : BasicNode) : String :=
  match b.node.rootDirCap with
  | some s => s
  | none => "/"

end ClusterPkg

namespace Docker

/-- PEM-encoded certificate and private key of the leaf ("Server") pair of an
`agent.Certs` value; bytes modelled as the characters of a string. -/
structure CertPair where
  CertPEMBytes : String
  KeyPEMBytes : String
deriving DecidableEq

/-- PEM-encoded certificate of the certificate authority of an `agent.Certs`. -/
structure CACert where
  CertPEMBytes : String
deriving DecidableEq

/-- The `agent.Certs` value: the certificate set generated once per run — a CA plus one
leaf certificate/key pair. -/
structure Certs where
  CA : CACert
  Server : CertPair
deriving DecidableEq

/-- The standard base64 alphabet, as used by `base64.StdEncoding`. -/
def base64Chars : List Char :=
  "ABCDEFGHIJKLMNOPQRSTUVWXYZabcdefghijklmnopqrstuvwxyz0123456789+/".toList

def b64c (n : Nat) : Char := base64Chars.getD n 'A'

/-- Embedding of `base64.StdEncoding.EncodeToString` on a byte list: standard base64 with
`=` padding. -/
def base64EncodeBytes : List Nat → List Char
  | [] => []
  | [a] => [b64c (a / 4 % 64), b64c (a % 4 * 16), '=', '=']
  | [a, b] => [b64c (a / 4 % 64), b64c (a % 4 * 16 + b / 16), b64c (b % 16 * 4), '=']
  | a :: b :: c :: rest =>
    b64c (a / 4 % 64) :: b64c (a % 4 * 16 + b / 16) ::
      b64c (b % 16 * 4 + c / 64) :: b64c (c % 64) :: base64EncodeBytes rest

def base64Encode (s : String) : String :=
  ⟨base64EncodeBytes (s.toList.map (fun c => c.toNat % 256))⟩

/-- The agent client built by `agent.NewClient(cert, host, port)` at the call
site in `Cluster.NewNodes`; modelled as the record of its arguments (the
client implementation lives in the `agent` package). -/
structure AgentClient where
  cert : Certs
  host : String
  port : Nat
deriving DecidableEq

/-- The Docker `node` struct (its `dockerClient` handle carries no data that
the claims depend on and is omitted). -/
structure DNode where
  ID : Nat
  ContainerName : String
  ContainerID : String
  HostPort : Nat
  Env : List (String × String)
  agentClient : AgentClient
deriving DecidableEq

/-- The `container.Config` fields that `Cluster.NewNodes` populates. -/
structure ContainerConfig where
  Image : String
  Entrypoint : List String
  ExposedPorts : List String
deriving DecidableEq

/-- The `container.HostConfig` fields that `Cluster.NewNodes` populates; a
port binding is (container port, host IP, host port). -/
structure HostConfig where
  Binds : List String
  PortBindings : List (String × String × String)
deriving DecidableEq

/-- One `ContainerCreate` request issued to the Docker daemon. -/
structure CreateCall where
  config : ContainerConfig
  hostConfig : HostConfig
  containerName : String
deriving DecidableEq

/-- The Docker `Cluster` struct.  The source field `ContainerPrefix` is named
`containerPref` here. -/
structure Cluster where
  Cert : Certs
  BaseImage : String
  containerPref : String
  Nodes : List DNode
  imagePulled : Bool
deriving DecidableEq

/-- Oracle responses of the external collaborators of `Cluster.NewNodes`: the
OS (`os.Getwd`, `files.FindUp`, `net.GetEphemeralTCPPort`), the Docker daemon
(image pull, container create/start), and the agent (`agent.NewClient`,
`WaitForServer`).  Per-iteration oracles are keyed by the loop index within
the call. -/
structure Env where
  getwd : Except String String
  findUp : String → String → String
  imagePull : Except String Unit
  getEphemeralTCPPort : Nat → Except String Nat
  containerCreate : Nat → Except String String
  containerStart : Nat → String → Except String Unit
  newClientErr : Nat → Option String
  waitForServer : Nat → Option String

/-- The container entrypoint `Cluster.NewNodes` launches every node with:
the node agent binary with the cluster's CA certificate, leaf certificate and
leaf key (base64-encoded PEM), heartbeat failure action `exit`, and the fixed
listen address. -/
def entrypointArgs (cert : Certs) : List String :=
  ["/nodeagent",
    "--ca-cert-pem", base64Encode cert.CA.CertPEMBytes,
    "--cert-pem", base64Encode cert.Server.CertPEMBytes,
    "--key-pem", base64Encode cert.Server.KeyPEMBytes,
    "--on-heartbeat-failure", "exit",
    "--listen-addr", "0.0.0.0:8080"]

/-- One iteration of the node-creation loop in `Cluster.NewNodes`: acquire an
ephemeral host port, create the container (entrypoint built from the
cluster's one certificate set), start it, and build the agent client from
that same certificate set.  Errors are wrapped exactly as in the source. -/
def createNode (env : Env) (cert : Certs) (baseImage pref nodeAgentBin : String)
    (startID i : Nat) : Except String (DNode × CreateCall) :=
  let id := startID + i
  let containerName := "clustertest-" ++ pref ++ "-" ++ toString id
  match env.getEphemeralTCPPort i with
  | .error e => .error ("acquiring ephemeral port: " ++ e)
  | .ok hostPort =>
    let call : CreateCall :=
      { config :=
          { Image := baseImage
            Entrypoint := entrypointArgs cert
            ExposedPorts := ["8080"] }
        hostConfig :=
          { Binds := [nodeAgentBin ++ ":/nodeagent"]
            PortBindings := [("8080", "0.0.0.0", toString hostPort)] }
        containerName := containerName }
    match env.containerCreate i with
    | .error e => .error ("creating Docker container: " ++ e)
    | .ok containerID =>
      match env.containerStart i containerID with
      | .error e =>
        .error ("starting container \"" ++ containerID ++ "\": " ++ e)
      | .ok _ =>
        match env.newClientErr i with
        | some e => .error ("building nodeagent client: " ++ e)
        | none =>
          .ok ({ ID := id
                 ContainerName := containerName
                 ContainerID := containerID
                 HostPort := hostPort
                 Env := []
                 agentClient := { cert := cert, host := "127.0.0.1", port := hostPort } },
               call)

/-- The node-creation loop of `Cluster.NewNodes`.  Each successful iteration
appends the node to both the cluster state (`c.Nodes`) and the call's fresh
node list; on an iteration error the loop stops, keeping the cluster-state
mutations of earlier iterations (as the Go code does).  The trace of
`ContainerCreate` requests issued so far is threaded through. -/
def runLoop (env : Env) (nodeAgentBin : String) (startID : Nat) :
    Nat → Nat → Cluster → List DNode → List CreateCall →
    Cluster × List DNode × List CreateCall × Option String
  | _, 0, cl, acc, calls => (cl, acc, calls, none)
  | i, k + 1, cl, acc, calls =>
    match createNode env cl.Cert cl.BaseImage cl.containerPref nodeAgentBin startID i with
    | .error e => (cl, acc, calls, some e)
    | .ok (nd, call) =>
      runLoop env nodeAgentBin startID (i + 1) k
        { cl with Nodes := cl.Nodes ++ [nd] } (acc ++ [nd]) (calls ++ [call])

/-- Result of one `Cluster.NewNodes` call: the returned `(nodes, error)`
value, the mutated cluster state, the trace of `ContainerCreate` requests,
and the trace of `WaitForServer` results observed (and discarded) in the
final loop. -/
structure NewNodesOut where
  result : Except String (List DNode)
  cluster : Cluster
  creates : List CreateCall
  waits : List (Option String)

/-- The preamble of `Cluster.NewNodes`: `os.Getwd` (error wrapped as
"getting wd") followed by `files.FindUp("nodeagent", wd)`, an empty result
meaning the binary was not found. -/
def resolveNodeAgentBin (env : Env) : Except String String :=
  match env.getwd with
  | .error e => .error ("getting wd: " ++ e)
  | .ok wd =>
    let nodeAgentBin := env.findUp "nodeagent" wd
    if nodeAgentBin = "" then .error "unable to find nodeagent bin"
    else .ok nodeAgentBin

/-- Embedding of `Cluster.ensureImagePulled`: pulls the base image unless a previous call
already did (memoised in `imagePulled`). -/
def ensureImagePulled (c : Cluster) (env : Env) : Except String Cluster :=
  if c.imagePulled then .ok c
  else
    match env.imagePull with
    | .error e => .error e
    | .ok _ => .ok { c with imagePulled := true }

/-- Embedding of `Cluster.NewNodes`: resolve the working directory and the node agent
binary, ensure the base image is pulled, run the node-creation loop, then
call `WaitForServer` on each fresh node's agent client — discarding each
result — and return the fresh nodes with a nil error. -/
def ClusterNewNodes (c : Cluster) (env : Env) (n : Nat) : NewNodesOut :=
  match resolveNodeAgentBin env with
  | .error e => ⟨.error e, c, [], []⟩
  | .ok nodeAgentBin =>
    match ensureImagePulled c env with
    | .error e => ⟨.error ("pulling image: " ++ e), c, [], []⟩
    | .ok c1 =>
      match runLoop env nodeAgentBin c1.Nodes.length 0 n c1 [] [] with
      | (c2, _, calls, some e) => ⟨.error e, c2, calls, []⟩
      | (c2, acc, calls, none) =>
        ⟨.ok acc, c2, calls, (List.range acc.length).map env.waitForServer⟩

/-- Embedding of `NewCluster(baseImage)`: builds the Docker client, generates the one
certificate set for the run (`agent.GenerateCert`, injected here as an
oracle outcome), and returns the initial cluster state holding that set.
This is the only place a certificate set enters a cluster. -/
def NewCluster (dockerClientRes : Except String Unit)
    (generated : Except String Certs) (baseImage pref : String) :
    Except String Cluster :=
  match dockerClientRes with
  | .error e => .error ("building Docker client: " ++ e)
  | .ok _ =>
    match generated with
    | .error e => .error ("generating TLS cert: " ++ e)
    | .ok cert =>
      .ok { Cert := cert
            BaseImage := baseImage
            containerPref := pref
            Nodes := []
            imagePulled := false }

/-- A sequence of `NewNodes` calls against an evolving cluster state,
accumulating all returned nodes and all `ContainerCreate` requests. -/
def newNodesSeq : Cluster → List (Env × Nat) → Cluster × List DNode × List CreateCall
  | c, [] => (c, [], [])
  | c, (env, n) :: rest =>
    ((newNodesSeq (ClusterNewNodes c env n).cluster rest).1,
      (match (ClusterNewNodes c env n).result with
        | .ok ns => ns
        | .error _ => []) ++ (newNodesSeq (ClusterNewNodes c env n).cluster rest).2.1,
      (ClusterNewNodes c env n).creates ++
        (newNodesSeq (ClusterNewNodes c env n).cluster rest).2.2)


/-- Look up the value following the first occurrence of a flag in an argument
vector, as a CLI flag parser would. -/
def flagValue : List String → String → Option String
  | a :: b :: rest, flag => if a = flag then some b else flagValue (b :: rest) flag
  | _, _ => none

/-- Modelled from the spec: the Liveness Supervisor of the node agent (the
agent implementation is not part of the provided sources).  It starts `Alive`;
if a heartbeat arrives before the deadline it stays `Alive`, otherwise it
transitions to `Dead` and — when the configured failure action is `exit` —
terminates the entire agent process (second component `true`). -/
inductive SupervisorState where
  | Alive : SupervisorState
  | Dead : SupervisorState
deriving DecidableEq

/-- Modelled from the spec: one deadline window of the Liveness Supervisor,
returning the resulting state and whether the agent process terminated. -/
def livenessStep (action : String) (heartbeatBeforeDeadline : Bool) :
    SupervisorState × Bool :=
  if heartbeatBeforeDeadline then (.Alive, false)
  else (.Dead, action = "exit")

/-- The cluster state `NewCluster` constructs when the Docker client and the
certificate generation both succeed. -/
def initialCluster (cert : Certs) (bi p : String) : Cluster :=
  ⟨cert, bi, p, [], false⟩

/-- A concrete certificate set, cluster and environment in which every
provisioning step succeeds but every `WaitForServer` call fails with a
timeout. -/
def cert0 : Certs := ⟨⟨""⟩, ⟨"", ""⟩⟩

def c0 : Cluster := ⟨cert0, "ubuntu", "abc123", [], false⟩

def env0 : Env :=
  { getwd := .ok "/work"
    findUp := fun _ _ => "/work/nodeagent"
    imagePull := .ok ()
    getEphemeralTCPPort := fun _ => .ok 40000
    containerCreate := fun i => .ok ("cid" ++ toString i)
    containerStart := fun _ _ => .ok ()
    newClientErr := fun _ => none
    waitForServer := fun _ => some "context deadline exceeded" }

/-- The node `ClusterNewNodes c0 env0 1` creates. -/
def node0 : DNode :=
  { ID := 0
    ContainerName := "clustertest-abc123-0"
    ContainerID := "cid0"
    HostPort := 40000
    Env := []
    agentClient := ⟨cert0, "127.0.0.1", 40000⟩ }

/-- The container-create request `ClusterNewNodes c0 env0 1` issues. -/
def call0 : CreateCall :=
  { config :=
      { Image := "ubuntu"
        Entrypoint := entrypointArgs cert0
        ExposedPorts := ["8080"] }
    hostConfig :=
      { Binds := ["/work/nodeagent:/nodeagent"]
        PortBindings := [("8080", "0.0.0.0", "40000")] }
    containerName := "clustertest-abc123-0" }


end Docker

namespace Agent

/-- Modelled from the spec: the Process Execution Engine (§4.3) of the node
agent, whose implementation is not among the provided sources (only its test
file `agent_test.go` is).  A process is modelled by its observable behavior:
a function from the complete standard-input stream it will see (the caller's
input relayed byte-for-byte and then closed, so the process observes EOF at
the end; an absent input stream means immediate EOF, i.e. the empty stream)
to the bytes it writes to standard output, the bytes it writes to standard
error, and its exit code. -/
structure ProcessSpec where
  behavior : String → String × String × Int

/-- The wiring of one `Run` request as exercised by `TestCommand`: a command
with arguments, an optional stdin stream, and whether a stdout (resp. stderr)
sink is attached. -/
structure RunRequest where
  Command : String
  Args : List String
  Stdin : Option String
  wantsStdout : Bool
  wantsStderr : Bool
deriving DecidableEq

/-- The observable outcome of one `Run`: the exit code delivered to the
caller's wait, and the bytes each attached sink received (`none` when no
sink was wired — per the spec the stream is then drained but discarded). -/
structure RunOutcome where
  exitCode : Int
  stdoutSink : Option String
  stderrSink : Option String
deriving DecidableEq

/-- Modelled from the spec: executing one `Run` request.  The process
receives exactly the caller's input bytes followed by EOF; each wired sink
receives exactly its own stream's bytes; an absent sink's stream is drained
and discarded (so the run always completes); the exit code is reported to
the wait regardless of wiring. -/
def engineRun (p : ProcessSpec) (req : RunRequest) : RunOutcome :=
  { exitCode := (p.behavior (req.Stdin.getD "")).2.2
    stdoutSink :=
      if req.wantsStdout then some (p.behavior (req.Stdin.getD "")).1 else none
    stderrSink :=
      if req.wantsStderr then some (p.behavior (req.Stdin.getD "")).2.1 else none }

/-- The builtin `read line` consumes the first line of stdin: the characters before the
first newline, or the whole stream when EOF arrives first. -/
def firstLine (s : String) : String := ⟨s.toList.takeWhile (fun c => c ≠ '\n')⟩

/-- Modelled from the spec: POSIX behavior of the `sh -c` scripts the test
table uses.  `printf foo; printf bar 1>&2` writes `foo` to stdout and `bar`
to stderr and exits 0; `read line; echo $line bar` reads the first line of
stdin and writes it back with ` bar` appended and a newline, exiting 0;
other scripts are outside the model. -/
def shModel (script : String) (stdin : String) : String × String × Int :=
  if script = "printf foo; printf bar 1>&2" then ("foo", "bar", 0)
  else if script = "read line; echo $line bar" then
    (firstLine stdin ++ " bar\n", "", 0)
  else ("", "", 127)

/-- Modelled from the spec: the behavior of the commands launched by the
test table.  `echo args...` writes its arguments joined by spaces plus a
newline to stdout and exits 0; `sh -c script` behaves per `shModel`; other
commands are outside the model. -/
def commandModel (cmd : String) (args : List String) : ProcessSpec :=
  if cmd = "echo" then ⟨fun _ => (String.intercalate " " args ++ "\n", "", 0)⟩
  else if cmd = "sh" then
    match args with
    | ["-c", script] => ⟨fun stdin => shModel script stdin⟩
    | _ => ⟨fun _ => ("", "", 2)⟩
  else ⟨fun _ => ("", "", 127)⟩

/-- One row of the `TestCommand` table in `agent_test.go`. -/
structure TestCase where
  name : String
  cmd : String
  args : List String
  stdin : String
  expStdout : String
  expStderr : String
deriving DecidableEq

/-- The five rows of the `TestCommand` table, verbatim. -/
def testCases : List TestCase :=
  [⟨"happy case", "echo", ["hello"], "", "hello\n", ""⟩,
   ⟨"happy case, no stdout reader", "echo", ["hello"], "", "", ""⟩,
   ⟨"happy case with stdout and stderr readers", "sh",
     ["-c", "printf foo; printf bar 1>&2"], "", "foo", "bar"⟩,
   ⟨"happy case with no stderr and stdout readers", "sh",
     ["-c", "printf foo; printf bar 1>&2"], "", "", ""⟩,
   ⟨"stdin to stdout", "sh", ["-c", "read line; echo $line bar"], "foo",
     "foo bar\n", ""⟩]

/-- The request `TestCommand` builds for a row: it wires a stdout sink iff
`expStdout` is non-empty, a stderr sink iff `expStderr` is non-empty, and a
stdin stream iff `stdin` is non-empty. -/
def mkRunRequest (c : TestCase) : RunRequest :=
  { Command := c.cmd
    Args := c.args
    Stdin := if c.stdin ≠ "" then some c.stdin else none
    wantsStdout := c.expStdout ≠ ""
    wantsStderr := c.expStderr ≠ "" }

/-- The engine outcome of one test-table row. -/
def caseOutcome (c : TestCase) : RunOutcome :=
  engineRun (commandModel c.cmd c.args) (mkRunRequest c)

end Agent

namespace Docker

theorem b64c_mem (n : Nat) : b64c n ∈ base64Chars := by
  unfold b64c
  rcases h : base64Chars[n]? with _ | c
  · simp [List.getD, h]
    decide
  · have := List.getElem?_mem h
    simpa [List.getD, h]

theorem base64_mem (bs : List Nat) :
    ∀ ch ∈ base64EncodeBytes bs, ch ∈ base64Chars ∨ ch = '=' := by
  match bs with
  | [] => simp [base64EncodeBytes]
  | [a] =>
    intro ch h
    simp only [base64EncodeBytes, List.mem_cons, List.not_mem_nil, or_false] at h
    rcases h with h | h | h | h <;> subst h <;>
      first
        | exact Or.inl (b64c_mem _)
        | exact Or.inr rfl
  | [a, b] =>
    intro ch h
    simp only [base64EncodeBytes, List.mem_cons, List.not_mem_nil, or_false] at h
    rcases h with h | h | h | h <;> subst h <;>
      first
        | exact Or.inl (b64c_mem _)
        | exact Or.inr rfl
  | a :: b :: c :: rest =>
    intro ch h
    simp only [base64EncodeBytes, List.mem_cons] at h
    rcases h with h | h | h | h | h
    · exact h ▸ Or.inl (b64c_mem _)
    · exact h ▸ Or.inl (b64c_mem _)
    · exact h ▸ Or.inl (b64c_mem _)
    · exact h ▸ Or.inl (b64c_mem _)
    · exact base64_mem rest ch h

/-- No base64-encoded string contains a `-`, so an encoded PEM blob can never
collide with a `--`-prefixed flag name. -/
theorem base64Encode_ne_flag (s flag : String) (hflag : '-' ∈ flag.toList) :
    base64Encode s ≠ flag := by
  intro h
  have hdata : base64EncodeBytes (s.toList.map (fun c => c.toNat % 256)) = flag.toList := by
    have := congrArg String.toList h
    simpa [base64Encode] using this
  have hmem : '-' ∈ base64EncodeBytes (s.toList.map (fun c => c.toNat % 256)) := by
    rw [hdata]; exact hflag
  rcases base64_mem _ '-' hmem with hin | heq
  · revert hin; decide
  · exact absurd heq (by decide)

/-- The heartbeat flag in the entrypoint parses to `exit` for every
certificate set: the base64 blobs cannot collide with the flag name. -/
theorem entrypointArgs_heartbeat (cert : Certs) :
    flagValue (entrypointArgs cert) "--on-heartbeat-failure" = some "exit" := by
  have h1 := base64Encode_ne_flag cert.CA.CertPEMBytes "--on-heartbeat-failure" (by decide)
  have h2 := base64Encode_ne_flag cert.Server.CertPEMBytes "--on-heartbeat-failure" (by decide)
  have h3 := base64Encode_ne_flag cert.Server.KeyPEMBytes "--on-heartbeat-failure" (by decide)
  simp [entrypointArgs, flagValue, h1, h2, h3]

theorem createNode_ok_spec (env : Env) (cert : Certs) (bi p nab : String)
    (s i : Nat) (nd : DNode) (call : CreateCall)
    (h : createNode env cert bi p nab s i = .ok (nd, call)) :
    nd.agentClient.cert = cert ∧ call.config.Entrypoint = entrypointArgs cert := by
  unfold createNode at h
  repeat' split at h
  all_goals simp_all
  constructor
  · rw [← h.1]
  · rw [← h.2]

theorem runLoop_spec (env : Env) (nab : String) (s : Nat) :
    ∀ k i cl acc calls,
      ((runLoop env nab s i k cl acc calls).1.Cert = cl.Cert) ∧
      (∀ nd ∈ (runLoop env nab s i k cl acc calls).2.1,
        nd ∈ acc ∨ nd.agentClient.cert = cl.Cert) ∧
      (∀ call ∈ (runLoop env nab s i k cl acc calls).2.2.1,
        call ∈ calls ∨ call.config.Entrypoint = entrypointArgs cl.Cert) := by
  intro k
  induction k with
  | zero =>
    intro i cl acc calls
    exact ⟨rfl, fun nd h => Or.inl h, fun call h => Or.inl h⟩
  | succ k ih =>
    intro i cl acc calls
    simp only [runLoop]
    rcases hc : createNode env cl.Cert cl.BaseImage cl.containerPref nab s i with
      e | ⟨nd0, call0⟩
    · exact ⟨rfl, fun nd h => Or.inl h, fun call h => Or.inl h⟩
    · have hspec := createNode_ok_spec env cl.Cert cl.BaseImage cl.containerPref
        nab s i nd0 call0 hc
      have hrec := ih (i + 1) { cl with Nodes := cl.Nodes ++ [nd0] }
        (acc ++ [nd0]) (calls ++ [call0])
      refine ⟨hrec.1, fun nd h => ?_, fun call h => ?_⟩
      · rcases hrec.2.1 nd h with hmem | hcert
        · rcases List.mem_append.1 hmem with hl | hr
          · exact Or.inl hl
          · simp only [List.mem_singleton] at hr
            exact Or.inr (hr ▸ hspec.1)
        · exact Or.inr hcert
      · rcases hrec.2.2 call h with hmem | hent
        · rcases List.mem_append.1 hmem with hl | hr
          · exact Or.inl hl
          · simp only [List.mem_singleton] at hr
            exact Or.inr (hr ▸ hspec.2)
        · exact Or.inr hent

theorem ensureImagePulled_cert (c : Cluster) (env : Env) (c1 : Cluster)
    (h : ensureImagePulled c env = .ok c1) : c1.Cert = c.Cert := by
  unfold ensureImagePulled at h
  by_cases hp : c.imagePulled
  · simp only [hp, if_true, Except.ok.injEq] at h
    rw [← h]
  · rcases hq : env.imagePull with e | u <;>
      simp only [hp, hq, if_false, Except.ok.injEq, reduceCtorEq] at h
    rw [← h]

theorem clusterNewNodes_spec (c : Cluster) (env : Env) (n : Nat) :
    (ClusterNewNodes c env n).cluster.Cert = c.Cert ∧
    (∀ call ∈ (ClusterNewNodes c env n).creates,
      call.config.Entrypoint = entrypointArgs c.Cert) ∧
    (∀ ns, (ClusterNewNodes c env n).result = .ok ns →
      ∀ nd ∈ ns, nd.agentClient.cert = c.Cert) := by
  unfold ClusterNewNodes
  rcases resolveNodeAgentBin env with e | nab
  · exact ⟨rfl, by simp, by simp⟩
  · dsimp only
    rcases hpull : ensureImagePulled c env with e | c1
    · exact ⟨rfl, by simp, by simp⟩
    · have hc1 : c1.Cert = c.Cert := ensureImagePulled_cert c env c1 hpull
      dsimp only
      have hloop := runLoop_spec env nab c1.Nodes.length n 0 c1 [] []
      rcases hrun : runLoop env nab c1.Nodes.length 0 n c1 [] [] with
        ⟨c2, acc, calls, err⟩
      rw [hrun] at hloop
      rcases err with _ | e
      · dsimp only at hloop ⊢
        refine ⟨hc1 ▸ hloop.1, fun call hcall => ?_, fun ns hns nd hnd => ?_⟩
        · rcases hloop.2.2 call hcall with hmem | hent
          · exact absurd hmem (List.not_mem_nil call)
          · exact hc1 ▸ hent
        · simp only [Except.ok.injEq] at hns
          rcases hloop.2.1 nd (hns ▸ hnd) with hmem | hcert
          · exact absurd hmem (List.not_mem_nil nd)
          · exact hc1 ▸ hcert
      · dsimp only at hloop ⊢
        refine ⟨hc1 ▸ hloop.1, fun call hcall => ?_, fun ns hns => ?_⟩
        · rcases hloop.2.2 call hcall with hmem | hent
          · exact absurd hmem (List.not_mem_nil call)
          · exact hc1 ▸ hent
        · exact absurd hns (by simp)

theorem runLoop_wait_irrel (env : Env) (w : Nat → Option String) (nab : String)
    (s : Nat) :
    ∀ k i cl acc calls,
      runLoop { env with waitForServer := w } nab s i k cl acc calls =
        runLoop env nab s i k cl acc calls := by
  intro k
  induction k with
  | zero => intro i cl acc calls; rfl
  | succ k ih =>
    intro i cl acc calls
    simp only [runLoop]
    have hc : createNode { env with waitForServer := w } cl.Cert cl.BaseImage
        cl.containerPref nab s i =
        createNode env cl.Cert cl.BaseImage cl.containerPref nab s i := rfl
    rw [hc]
    rcases createNode env cl.Cert cl.BaseImage cl.containerPref nab s i with
      e | ⟨nd0, call0⟩
    · rfl
    · exact ih (i + 1) _ _ _

theorem clusterNewNodes_wait_irrel (c : Cluster) (env : Env)
    (w : Nat → Option String) (n : Nat) :
    (ClusterNewNodes c { env with waitForServer := w } n).result =
      (ClusterNewNodes c env n).result ∧
    (ClusterNewNodes c { env with waitForServer := w } n).cluster =
      (ClusterNewNodes c env n).cluster ∧
    (ClusterNewNodes c { env with waitForServer := w } n).creates =
      (ClusterNewNodes c env n).creates := by
  unfold ClusterNewNodes
  have h1 : resolveNodeAgentBin { env with waitForServer := w } =
      resolveNodeAgentBin env := rfl
  have h2 : ensureImagePulled c { env with waitForServer := w } =
      ensureImagePulled c env := rfl
  rw [h1, h2]
  rcases resolveNodeAgentBin env with e | nab
  · exact ⟨rfl, rfl, rfl⟩
  · dsimp only
    rcases ensureImagePulled c env with e | c1
    · exact ⟨rfl, rfl, rfl⟩
    · dsimp only
      rw [runLoop_wait_irrel env w nab c1.Nodes.length n 0 c1 [] []]
      rcases runLoop env nab c1.Nodes.length 0 n c1 [] [] with ⟨c2, acc, calls, err⟩
      rcases err with _ | e
      · exact ⟨rfl, rfl, rfl⟩
      · exact ⟨rfl, rfl, rfl⟩

theorem clusterNewNodes_waits (c : Cluster) (env : Env) (n : Nat)
    (ns : List DNode) (h : (ClusterNewNodes c env n).result = .ok ns) :
    (ClusterNewNodes c env n).waits =
      (List.range ns.length).map env.waitForServer := by
  unfold ClusterNewNodes at h ⊢
  rcases hr : resolveNodeAgentBin env with e | nab <;> rw [hr] at h
  · dsimp only at h
    exact absurd h (by simp)
  · dsimp only at h ⊢
    rcases hq : ensureImagePulled c env with e | c1 <;> rw [hq] at h
    · dsimp only at h
      exact absurd h (by simp)
    · dsimp only at h ⊢
      rcases hl : runLoop env nab c1.Nodes.length 0 n c1 [] [] with
        ⟨c2, acc, calls, err⟩
      rw [hl] at h
      rcases err with _ | e
      · dsimp only at h ⊢
        simp only [Except.ok.injEq] at h
        rw [h]
      · dsimp only at h
        exact absurd h (by simp)

theorem newNodesSeq_spec (cert : Certs) :
    ∀ (reqs : List (Env × Nat)) (c : Cluster), c.Cert = cert →
      (newNodesSeq c reqs).1.Cert = cert ∧
      (∀ call ∈ (newNodesSeq c reqs).2.2,
        call.config.Entrypoint = entrypointArgs cert) ∧
      (∀ nd ∈ (newNodesSeq c reqs).2.1, nd.agentClient.cert = cert) := by
  intro reqs
  induction reqs with
  | nil =>
    intro c hc
    exact ⟨hc, by simp [newNodesSeq], by simp [newNodesSeq]⟩
  | cons hd tl ih =>
    intro c hc
    obtain ⟨env, n⟩ := hd
    simp only [newNodesSeq]
    have hspec := clusterNewNodes_spec c env n
    have htl := ih (ClusterNewNodes c env n).cluster (hspec.1.trans hc)
    refine ⟨htl.1, fun call hcall => ?_, fun nd hnd => ?_⟩
    · rcases List.mem_append.1 hcall with hl | hr
      · rw [hspec.2.1 call hl, hc]
      · exact htl.2.1 call hr
    · rcases List.mem_append.1 hnd with hl | hr
      · rcases hres : (ClusterNewNodes c env n).result with e | ns
        · simp only [hres] at hl
          exact absurd hl (List.not_mem_nil nd)
        · simp only [hres] at hl
          rw [hspec.2.2 ns hres nd hl, hc]
      · exact htl.2.2 nd hr

end Docker

namespace ClusterPkg

/-- C1: the claim states that `BasicNode.Run` on a process exiting with code
`c` returns `(c, nil)` for every `c`, including `c ≠ 0`.  The source refutes
it: when `Wait` yields exit code `1` (with no transport error), `Run` returns
`(-1, some error)`, not `(1, none)`. -/
theorem C1_run_counterexample :
    Run (.ok (1, none)) = (-1, some "non-zero exit code 1: %!w(<nil>)") ∧
    Run (.ok (1, none)) ≠ (1, none) := by
  constructor
  · rfl
  · decide

/-- C1 (amended): `BasicNode.Run` yields `(c, nil)` only for `c = 0` (any
`Wait` error alongside exit code `0` is discarded); a non-zero exit code `c`
is reported as `(-1, error wrapping c)`, and a start failure as
`(-1, start error)`. -/
theorem C1_run_amended :
    (∀ werr, Run (.ok (0, werr)) = (0, none)) ∧
    (∀ code werr, code ≠ 0 →
      Run (.ok (code, werr)) =
        (-1, some ("non-zero exit code " ++ toString code ++ ": "
          ++ werrString werr))) ∧
    (∀ e, Run (.error e) = (-1, some e)) := by
  refine ⟨fun werr => rfl, fun code werr h => ?_, fun e => rfl⟩
  simp [Run, h]

/-- Witness for C1 (amended) at exit code 2 with no `Wait` error. -/
theorem C1_run_amended_witness :
    Run (.ok (2, none)) = (-1, some "non-zero exit code 2: %!w(<nil>)") :=
  C1_run_amended.2.1 2 none (by decide)

/-- C8: `BasicCluster.NewNode` is safe exactly when the wrapped cluster's
`NewNodes(ctx, 1)` returns an error or a non-empty node list: it propagates a
non-nil error, wraps the first node when the list is non-empty and the error
nil, and panics (unguarded `nodes[0]`) on a nil error with an empty list. -/
theorem C8_newNode_unsafe_on_empty :
    (∀ log e ns, NewNode log (ns, some e) = .err e) ∧
    (∀ log nd rest, NewNode log (nd :: rest, none) = .ok (wrapNode log nd)) ∧
    (∀ log, NewNode log ([], none) =
      .panicked "runtime error: index out of range [0] with length 0") :=
  ⟨fun _ _ _ => rfl, fun _ _ _ => rfl, fun _ => rfl⟩

/-- C9: `BasicCluster.NewNodes` is not atomic on failure: it wraps every node
the underlying cluster produced, in the same order, and returns that list
together with the underlying error — so a caller can receive a non-empty node
list and a non-nil error from the same call (shown at a concrete input). -/
theorem C9_newNodes_not_atomic :
    (∀ log ns e, NewNodes log (ns, e) = (ns.map (wrapNode log), e)) ∧
    (∀ log ns e, ((NewNodes log (ns, e)).1.map BasicNode.node) = ns) ∧
    (NewNodes "basic_cluster" ([⟨0, none⟩, ⟨1, none⟩], some "boom") =
      ([wrapNode "basic_cluster" ⟨0, none⟩, wrapNode "basic_cluster" ⟨1, none⟩],
        some "boom") ∧
      ((NewNodes "basic_cluster" ([⟨0, none⟩, ⟨1, none⟩], some "boom")).1 ≠ [] ∧
        (NewNodes "basic_cluster" ([⟨0, none⟩, ⟨1, none⟩], some "boom")).2 ≠ none)) := by
  refine ⟨fun _ _ _ => rfl, fun log ns e => ?_, by decide, by decide, by decide⟩
  simp only [NewNodes, List.map_map]
  exact List.map_id'' (fun _ => rfl) ns

/-- C10: `BasicNode.RootDir` returns the wrapped node's `RootDir()` result
when the dynamic type implements `RootDir() string`, and the fixed default
`"/"` when it does not. -/
theorem C10_rootDir :
    (∀ b : BasicNode, ∀ s, b.node.rootDirCap = some s → RootDir b = s) ∧
    (∀ b : BasicNode, b.node.rootDirCap = none → RootDir b = "/") := by
  constructor
  · intro b s h
    simp [RootDir, h]
  · intro b h
    simp [RootDir, h]

/-- Witness for C10 at a node implementing `RootDir` (returning "/data") and
one that does not. -/
theorem C10_rootDir_witness :
    RootDir ⟨⟨0, some "/data"⟩, "l"⟩ = "/data" ∧ RootDir ⟨⟨1, none⟩, "l"⟩ = "/" :=
  ⟨C10_rootDir.1 ⟨⟨0, some "/data"⟩, "l"⟩ "/data" rfl,
    C10_rootDir.2 ⟨⟨1, none⟩, "l"⟩ rfl⟩

end ClusterPkg

namespace Docker

/-- C2: the claim states that when `WaitForServer` fails for a node, that
reachability error is surfaced by `Cluster.NewNodes`.  The source refutes it:
in an environment where every provisioning step succeeds but the single new
node's `WaitForServer` fails with a timeout, the recorded `WaitForServer`
outcome is that error, yet `NewNodes` still returns the node with a nil
error — the reachability error is discarded, not surfaced. -/
theorem C2_waitForServer_counterexample :
    env0.waitForServer 0 = some "context deadline exceeded" ∧
    (ClusterNewNodes c0 env0 1).waits = [some "context deadline exceeded"] ∧
    (ClusterNewNodes c0 env0 1).result = .ok [node0] :=
  ⟨rfl, rfl, rfl⟩

/-- C2 (amended): before returning, `Cluster.NewNodes` calls `WaitForServer`
once per newly created node (on success the wait trace is exactly one
`WaitForServer` result per returned node, in order), but each result is
discarded: the returned error, nodes and cluster state are identical under
any `WaitForServer` oracle whatsoever, so a reachability failure is never
surfaced to the caller. -/
theorem C2_waitForServer_discarded :
    (∀ (c : Cluster) (env : Env) (w : Nat → Option String) (n : Nat),
      (ClusterNewNodes c { env with waitForServer := w } n).result =
        (ClusterNewNodes c env n).result ∧
      (ClusterNewNodes c { env with waitForServer := w } n).cluster =
        (ClusterNewNodes c env n).cluster ∧
      (ClusterNewNodes c { env with waitForServer := w } n).creates =
        (ClusterNewNodes c env n).creates) ∧
    (∀ (c : Cluster) (env : Env) (n : Nat) (ns : List DNode),
      (ClusterNewNodes c env n).result = .ok ns →
      (ClusterNewNodes c env n).waits =
        (List.range ns.length).map env.waitForServer) :=
  ⟨clusterNewNodes_wait_irrel, clusterNewNodes_waits⟩

/-- Witness for C2 (amended): in the concrete failing-wait environment the
result is the same as under an always-succeeding wait oracle, and the wait
trace has exactly one entry for the one returned node. -/
theorem C2_waitForServer_discarded_witness :
    ((ClusterNewNodes c0 { env0 with waitForServer := fun _ => none } 1).result =
      (ClusterNewNodes c0 env0 1).result) ∧
    (ClusterNewNodes c0 env0 1).waits =
      (List.range ([node0].length)).map env0.waitForServer :=
  ⟨(C2_waitForServer_discarded.1 c0 env0 (fun _ => none) 1).1,
    C2_waitForServer_discarded.2 c0 env0 1 [node0] rfl⟩

/-- C3: exactly one certificate set exists per Docker cluster, fixed at
construction time: `NewCluster` stores the one generated set in the cluster
state, and across any sequence of `NewNodes` calls the cluster's set never
changes, every container-create request launches the node agent with exactly
that set's PEM material in its entrypoint, and every agent client is built
from that same set — no node-creation step generates a certificate. -/
theorem C3_single_certificate_set :
    ∀ (cert : Certs) (bi p : String) (reqs : List (Env × Nat)),
      NewCluster (.ok ()) (.ok cert) bi p = .ok (initialCluster cert bi p) ∧
      (newNodesSeq (initialCluster cert bi p) reqs).1.Cert = cert ∧
      (∀ call ∈ (newNodesSeq (initialCluster cert bi p) reqs).2.2,
        call.config.Entrypoint = entrypointArgs cert) ∧
      (∀ nd ∈ (newNodesSeq (initialCluster cert bi p) reqs).2.1,
        nd.agentClient.cert = cert) := by
  intro cert bi p reqs
  have h := newNodesSeq_spec cert reqs (initialCluster cert bi p) rfl
  exact ⟨rfl, h.1, h.2.1, h.2.2⟩

/-- Witness for C3 at a concrete cluster with one `NewNodes` call: the one
create request's entrypoint embeds `cert0` and the one node's client holds
`cert0`. -/
theorem C3_single_certificate_set_witness :
    call0.config.Entrypoint = entrypointArgs cert0 ∧
    node0.agentClient.cert = cert0 :=
  ⟨(C3_single_certificate_set cert0 "ubuntu" "abc123" [(env0, 1)]).2.2.1
      call0 (by decide),
    (C3_single_certificate_set cert0 "ubuntu" "abc123" [(env0, 1)]).2.2.2
      node0 (by decide)⟩

/-- C4: every container-create request issued by the Docker cluster launches
the node agent with `--on-heartbeat-failure` parsing to `exit` (the base64
PEM blobs in the entrypoint can never collide with the flag name), and — per
the spec-modelled Liveness Supervisor — an agent configured with action
`exit` whose heartbeat deadline elapses transitions to `Dead` and terminates
the agent process. -/
theorem C4_heartbeat_failure_exit :
    (∀ (c : Cluster) (env : Env) (n : Nat),
      ∀ call ∈ (ClusterNewNodes c env n).creates,
        flagValue call.config.Entrypoint "--on-heartbeat-failure" = some "exit") ∧
    livenessStep "exit" false = (SupervisorState.Dead, true) := by
  refine ⟨fun c env n call hcall => ?_, by decide⟩
  rw [(clusterNewNodes_spec c env n).2.1 call hcall]
  exact entrypointArgs_heartbeat c.Cert

/-- Witness for C4 at the concrete create request issued by
`ClusterNewNodes c0 env0 1`. -/
theorem C4_heartbeat_failure_exit_witness :
    flagValue call0.config.Entrypoint "--on-heartbeat-failure" = some "exit" :=
  C4_heartbeat_failure_exit.1 c0 env0 1 call0 (by decide)


end Docker

namespace Agent

/-- C5: a `Run` request with one or both output sinks absent still completes
and reports the process's exit code: the exit code delivered is always the
process's own exit code regardless of wiring, an unwired stdout (resp.
stderr) simply yields no sink contents (the stream is drained and
discarded in the model), and the two cited test rows — `echo hello` with no
stdout sink, and the stdout+stderr writer with neither sink — both yield
exit code 0. -/
theorem C5_absent_sinks_exit_code :
    (∀ (p : ProcessSpec) (req : RunRequest),
      (engineRun p req).exitCode = (p.behavior (req.Stdin.getD "")).2.2) ∧
    (∀ (p : ProcessSpec) (cmd : String) (args : List String)
        (st : Option String) (we : Bool),
      (engineRun p ⟨cmd, args, st, false, we⟩).stdoutSink = none) ∧
    (∀ (p : ProcessSpec) (cmd : String) (args : List String)
        (st : Option String) (wo : Bool),
      (engineRun p ⟨cmd, args, st, wo, false⟩).stderrSink = none) ∧
    ((⟨"happy case, no stdout reader", "echo", ["hello"], "", "", ""⟩ :
        TestCase) ∈ testCases ∧
      caseOutcome ⟨"happy case, no stdout reader", "echo", ["hello"],
        "", "", ""⟩ = ⟨0, none, none⟩) ∧
    ((⟨"happy case with no stderr and stdout readers", "sh",
        ["-c", "printf foo; printf bar 1>&2"], "", "", ""⟩ : TestCase) ∈
        testCases ∧
      caseOutcome ⟨"happy case with no stderr and stdout readers", "sh",
        ["-c", "printf foo; printf bar 1>&2"], "", "", ""⟩ = ⟨0, none, none⟩) :=
  ⟨fun _ _ => rfl, fun _ _ _ _ _ => rfl, fun _ _ _ _ _ => rfl,
    ⟨by decide, by decide⟩, ⟨by decide, by decide⟩⟩

/-- C6: the bytes of a supplied input stream reach the process's stdin
exactly as sent and its exhaustion is observed as EOF: the engine hands the
process exactly the stream `s` (first conjunct, for every process and every
wiring); `read line; echo $line bar` on any stdin echoes its first line —
terminated by newline or EOF — with " bar" appended (second conjunct); and
the cited test row with input "foo" exits 0 with stdout exactly
"foo bar\n". -/
theorem C6_stdin_relayed_with_eof :
    (∀ (p : ProcessSpec) (cmd : String) (args : List String) (s : String)
        (wo we : Bool),
      engineRun p ⟨cmd, args, some s, wo, we⟩ =
        ⟨(p.behavior s).2.2,
          if wo then some (p.behavior s).1 else none,
          if we then some (p.behavior s).2.1 else none⟩) ∧
    (∀ s, (commandModel "sh" ["-c", "read line; echo $line bar"]).behavior s =
      (firstLine s ++ " bar\n", "", 0)) ∧
    ((⟨"stdin to stdout", "sh", ["-c", "read line; echo $line bar"], "foo",
        "foo bar\n", ""⟩ : TestCase) ∈ testCases ∧
      caseOutcome ⟨"stdin to stdout", "sh", ["-c", "read line; echo $line bar"],
        "foo", "foo bar\n", ""⟩ = ⟨0, some "foo bar\n", none⟩) :=
  ⟨fun _ _ _ _ _ _ => rfl, fun _ => rfl, ⟨by decide, by decide⟩⟩

/-- C7: with both sinks wired, each sink receives exactly the bytes its own
process stream produced and nothing of the other stream (first conjunct, for
every process and input — and hence independent of the order in which the
process interleaved its writes, since the model only distinguishes the
per-stream byte sequences); the cited test row printing "foo" to stdout and
"bar" to stderr yields sink contents exactly "foo" and "bar". -/
theorem C7_both_sinks_uninterleaved :
    (∀ (p : ProcessSpec) (cmd : String) (args : List String)
        (st : Option String),
      engineRun p ⟨cmd, args, st, true, true⟩ =
        ⟨(p.behavior (st.getD "")).2.2,
          some (p.behavior (st.getD "")).1,
          some (p.behavior (st.getD "")).2.1⟩) ∧
    ((⟨"happy case with stdout and stderr readers", "sh",
        ["-c", "printf foo; printf bar 1>&2"], "", "foo", "bar"⟩ : TestCase) ∈
        testCases ∧
      caseOutcome ⟨"happy case with stdout and stderr readers", "sh",
        ["-c", "printf foo; printf bar 1>&2"], "", "foo", "bar"⟩ =
        ⟨0, some "foo", some "bar"⟩) :=
  ⟨fun _ _ _ _ => rfl, ⟨by decide, by decide⟩⟩


end Agent
